import Mathlib

/-!
Verification of TxMongo's session/transaction state machine, connection-pool
deadline handling, and GridFS file objects.

The GridFS definitions (`GridIn`, `GridOutIterator`) are shallow embeddings of
`txmongo/_gridfs/grid_file.py`.  The session/transaction and pool definitions
are modelled from the specification (the implementation modules
`txmongo/sessions.py` and `txmongo/connection.py` are not part of the corpus;
only their tests are), as recorded in each doc comment.
-/

namespace TxMongo

/-! ## Write concerns and wire messages -/

/-- The value of the `w` field of a write concern: either a number of nodes or
a mode string such as `"majority"`. -/
inductive WVal where
  | num (n : Nat)
  | str (s : String)
  deriving DecidableEq, Repr

/-- Modelled from the spec: a write concern document, with optional `w` and
`wtimeout` fields (the two fields exercised by the transaction machinery).
An empty write concern serializes as `{}`. -/
structure WriteConcern where
  w : Option WVal := none
  wtimeout : Option Nat := none
  deriving DecidableEq, Repr

/-- A write concern is unacknowledged when `w` is the number 0. -/
def WriteConcern.unacknowledged (wc : WriteConcern) : Bool :=
  wc.w == some (.num 0)

/-- The command names that appear in the transaction wire traffic. -/
inductive CmdName where
  | insert
  | find
  | commitTransaction
  | abortTransaction
  deriving DecidableEq, Repr

/-- Modelled from the spec: a wire message as observed by the tests — the
command name plus the optional `writeConcern` and `maxTimeMS` fields attached
to it.  `writeConcern = none` means the field is absent from the document. -/
structure Msg where
  cmd : CmdName
  writeConcern : Option WriteConcern := none
  maxTimeMS : Option Nat := none
  deriving DecidableEq, Repr

/-! ## Session and transaction state machine

Modelled from the spec, §4.5 "Session & Transaction State Machine" and §3
"Transaction" data model; the implementation (`txmongo/sessions.py`) is not in
the corpus. -/

/-- Transaction state: `none`, `Starting`, `InProgress`, `Committed`,
`Aborted`. -/
inductive TxnState where
  | none
  | starting
  | inProgress
  | committed
  | aborted
  deriving DecidableEq, Repr

/-- Errors raised by session/transaction misuse. -/
inductive TxnError where
  | invalidOperation
  | configurationError
  | typeError
  deriving DecidableEq, Repr

/-- Modelled from the spec: per-session default transaction options
(write concern and max commit time). -/
structure TransactionOptions where
  write_concern : Option WriteConcern := none
  max_commit_time_ms : Option Nat := none
  deriving DecidableEq, Repr

/-- The `write_concern` argument of `start_transaction` as a dynamic Python
value: absent, a `WriteConcern` instance, or some other value (e.g. `123` or a
raw dict), which must be rejected with a type error. -/
inductive WCArg where
  | noneGiven
  | wc (w : WriteConcern)
  | nonWC
  deriving DecidableEq, Repr

/-- The `max_commit_time_ms` argument of `start_transaction` as a dynamic
Python value: absent, an integer, or some other value (e.g. `"5"`), which must
be rejected with a type error. -/
inductive MCTArg where
  | noneGiven
  | int (n : Nat)
  | nonInt
  deriving DecidableEq, Repr

/-- Modelled from the spec: a client session.  It tracks the transaction
state, whether the active transaction has sent at least one statement, the
write concern and max commit time resolved for the active transaction, the
session's default transaction options, the connection-level default write
concern, and whether the session has been ended. -/
structure Session where
  txnState : TxnState := .none
  statementsSent : Bool := false
  txnNumber : Nat := 0
  txnWC : WriteConcern := {}
  txnMCT : Option Nat := none
  defaultTxnOptions : TransactionOptions := {}
  connWC : Option WriteConcern := none
  ended : Bool := false
  deriving DecidableEq, Repr

/-- Modelled from the spec: `start_session` creates a fresh session with the
given connection-level default write concern and default transaction
options. -/
def startSession (connWC : Option WriteConcern)
    (defaults : TransactionOptions) : Session :=
  { connWC := connWC, defaultTxnOptions := defaults }

/-- Modelled from the spec, §4.5: write-concern resolution precedence —
explicit per-transaction option > session default transaction options >
connection-level default > none (an empty write concern). -/
def resolveWC (explicit : Option WriteConcern) (sessionDefault : Option WriteConcern)
    (connDefault : Option WriteConcern) : WriteConcern :=
  ((explicit <|> sessionDefault) <|> connDefault).getD {}

/-- Modelled from the spec, §4.5: `max_commit_time` resolves with the same
precedence (the connection level defines none). -/
def resolveMCT (explicit : Option Nat) (sessionDefault : Option Nat) : Option Nat :=
  explicit <|> sessionDefault

/-- The explicit write concern carried by a `write_concern` argument, when it
is a genuine `WriteConcern`. -/
def WCArg.explicitWC : WCArg → Option WriteConcern
  | .wc w => some w
  | _ => Option.none

/-- The explicit max commit time carried by a `max_commit_time_ms` argument,
when it is a genuine integer. -/
def MCTArg.explicitMCT : MCTArg → Option Nat
  | .int n => some n
  | _ => Option.none

/-- Modelled from the spec, §4.5: `start_transaction`.  Option values are
validated first (a non-`WriteConcern` `write_concern` or a non-integer
`max_commit_time_ms` is a type error; an unacknowledged write concern is a
configuration error).  Starting on an ended session, or while a transaction is
already `Starting` or `InProgress`, is an invalid operation.  On success the
transaction enters `Starting` with a fresh transaction number and the resolved
write concern / max commit time; no wire message is emitted. -/
def Session.start_transaction (s : Session) (wcArg : WCArg) (mctArg : MCTArg) :
    Except TxnError Session :=
  match wcArg with
  | .nonWC => .error .typeError
  | _ =>
    match mctArg with
    | .nonInt => .error .typeError
    | _ =>
      if (wcArg.explicitWC.getD {}).unacknowledged then .error .configurationError
      else if s.ended then .error .invalidOperation
      else if s.txnState = .starting ∨ s.txnState = .inProgress then
        .error .invalidOperation
      else
        .ok { s with
              txnState := .starting
              statementsSent := false
              txnNumber := s.txnNumber + 1
              txnWC := resolveWC wcArg.explicitWC s.defaultTxnOptions.write_concern
                         s.connWC
              txnMCT := resolveMCT mctArg.explicitMCT
                          s.defaultTxnOptions.max_commit_time_ms }

/-- Modelled from the spec, §4.5: executing one statement on a session.
While a transaction is active (`Starting` or `InProgress`), the statement's
own write concern is suppressed entirely — the message carries no
`writeConcern` field — and the transaction moves to `InProgress` with the
"has sent a statement" flag set.  Outside a transaction the explicit write
concern is attached to the message. -/
def Session.executeStatement (s : Session) (cmd : CmdName)
    (explicitWC : Option WriteConcern) : Session × Msg :=
  if s.txnState = .starting ∨ s.txnState = .inProgress then
    ({ s with txnState := .inProgress, statementsSent := true },
     { cmd := cmd })
  else
    (s, { cmd := cmd, writeConcern := explicitWC })

/-- The outcome of handing one commit message to the wire layer: delivered,
failed with an error carrying the `RetryableWriteError` label, or failed with
any other error. -/
inductive SendOutcome where
  | ok
  | failRetryable
  | failOther
  deriving DecidableEq, Repr

/-- Modelled from the spec, §4.5 retry policy: the write concern used by the
automatic commit retry — majority with a fixed 10000 ms wait bound. -/
def retryWC : WriteConcern :=
  { w := some (.str "majority"), wtimeout := some 10000 }

/-- Modelled from the spec, §4.5: `commit_transaction`, with the outcome of
each wire send supplied explicitly (`o1` for the first commit message, `o2`
for the retried one).  Committing with no transaction (`None`) or after an
abort is an invalid operation.  Committing from `Starting` (no statement ever
sent) succeeds without emitting any wire message.  From `InProgress` (or again
from `Committed`, which re-sends) the commit command is sent with the resolved
write concern and max commit time; if that send fails with a
retryable-write-labeled error, the commit is retried exactly once more with
the majority/10000ms write concern; any other failure surfaces without
retry.  The returned `Bool` tells whether the commit ultimately succeeded. -/
def Session.commit_transaction_with (s : Session) (o1 o2 : SendOutcome) :
    Except TxnError (Session × List Msg × Bool) :=
  match s.txnState with
  | .none => .error .invalidOperation
  | .aborted => .error .invalidOperation
  | .starting => .ok ({ s with txnState := .committed }, [], true)
  | .inProgress | .committed =>
    let m1 : Msg := { cmd := .commitTransaction, writeConcern := some s.txnWC,
                      maxTimeMS := s.txnMCT }
    match o1 with
    | .ok => .ok ({ s with txnState := .committed }, [m1], true)
    | .failOther => .ok (s, [m1], false)
    | .failRetryable =>
      let m2 : Msg := { cmd := .commitTransaction, writeConcern := some retryWC,
                        maxTimeMS := s.txnMCT }
      match o2 with
      | .ok => .ok ({ s with txnState := .committed }, [m1, m2], true)
      | _ => .ok (s, [m1, m2], false)

/-- `commit_transaction` on a healthy wire: both sends succeed. -/
def Session.commit_transaction (s : Session) :
    Except TxnError (Session × List Msg × Bool) :=
  s.commit_transaction_with .ok .ok

/-- Modelled from the spec, §4.5: `abort_transaction`.  Aborting with no
transaction, after a commit, or a second time after an abort is an invalid
operation.  Aborting from `Starting` (no statement ever sent) emits no wire
message; from `InProgress` it sends the abort command with the resolved write
concern (max commit time is attached to the commit command only). -/
def Session.abort_transaction (s : Session) : Except TxnError (Session × List Msg) :=
  match s.txnState with
  | .none => .error .invalidOperation
  | .aborted => .error .invalidOperation
  | .committed => .error .invalidOperation
  | .starting => .ok ({ s with txnState := .aborted }, [])
  | .inProgress =>
    .ok ({ s with txnState := .aborted },
         [{ cmd := .abortTransaction, writeConcern := some s.txnWC }])

/-- Modelled from the spec, §4.5: `end_session`.  Ending a session while a
transaction is `Starting` or `InProgress` implicitly aborts it, sending an
abort command only if at least one statement was sent; afterwards the session
is ended with no transaction. -/
def Session.end_session (s : Session) : Session × List Msg :=
  let msgs : List Msg :=
    if (s.txnState = .starting ∨ s.txnState = .inProgress) ∧ s.statementsSent then
      [{ cmd := .abortTransaction, writeConcern := some s.txnWC }]
    else []
  ({ s with txnState := .none, ended := true }, msgs)

/-- Modelled from the spec, §6/§9: the scoped-transaction helper
(`async with session.start_transaction()`).  It starts a transaction, runs the
body — which transforms the session, emits wire messages, and either finishes
normally or raises (`some exc`) — then commits on normal exit and aborts on a
raised failure, propagating the failure unchanged. -/
def runScopedTransaction (s : Session) (wcArg : WCArg) (mctArg : MCTArg)
    (body : Session → Session × List Msg × Option String) :
    Except TxnError (Session × List Msg × Option String) :=
  match s.start_transaction wcArg mctArg with
  | .error e => .error e
  | .ok s1 =>
    let (s2, bodyMsgs, exc) := body s1
    match exc with
    | Option.none =>
      match s2.commit_transaction with
      | .error e => .error e
      | .ok (s3, commitMsgs, _) => .ok (s3, bodyMsgs ++ commitMsgs, Option.none)
    | some e =>
      match s2.abort_transaction with
      | .error err => .error err
      | .ok (s3, abortMsgs) => .ok (s3, bodyMsgs ++ abortMsgs, some e)

/-- One step of a statement sequence: execute the statement (with no explicit
write concern) and append its wire message. -/
def stmtStep (a : Session × List Msg) (c : CmdName) : Session × List Msg :=
  ((a.1.executeStatement c Option.none).1,
   a.2 ++ [(a.1.executeStatement c Option.none).2])

/-- A body for the scoped-transaction helper that executes the given
statements in order (each with no explicit write concern) and then exits
normally (`exc = none`) or raises (`exc = some e`). -/
def seqBody (stmts : List CmdName) (exc : Option String) :
    Session → Session × List Msg × Option String :=
  fun s =>
    let r := stmts.foldl stmtStep (s, [])
    (r.1, r.2, exc)

/-- Modelled from the spec, §8 scenario: a session starts a transaction with
an explicit write concern, inserts one document, then commits, where the
outcome of each commit send is injected (`o1`, `o2`); the insert itself
succeeds.  Returns every wire message produced. -/
def insertCommitScenario (wc : WriteConcern) (o1 o2 : SendOutcome) : List Msg :=
  let s0 := startSession Option.none {}
  match s0.start_transaction (.wc wc) .noneGiven with
  | .error _ => []
  | .ok s1 =>
    let (s2, insertMsg) := s1.executeStatement .insert Option.none
    match s2.commit_transaction_with o1 o2 with
    | .error _ => [insertMsg]
    | .ok (_, commitMsgs, _) => insertMsg :: commitMsgs

/-- Iterate `commit_transaction` `n` times, collecting all emitted messages;
fails as soon as one call fails. -/
def Session.commitMany (s : Session) : Nat → Except TxnError (Session × List Msg)
  | 0 => .ok (s, [])
  | n + 1 =>
    match s.commit_transaction with
    | .error e => .error e
    | .ok (s', msgs, _) =>
      match s'.commitMany n with
      | .error e => .error e
      | .ok (s'', rest) => .ok (s'', msgs ++ rest)

/-! ## Connection pool: deadline enforcement

Modelled from the spec, §4.4 (the pool implementation `txmongo/connection.py`
is not in the corpus).  Time is discrete; `serverUp t` says whether a matching
server is reachable at instant `t`. -/

/-- The final outcome of a submitted operation: success, deadline exceeded, or
the underlying reconnect-class connection error surfacing to the caller. -/
inductive PoolOutcome where
  | success
  | timeExceeded
  | reconnectError
  deriving DecidableEq, Repr

/-- Modelled from the spec, §4.4: one server-selection attempt at instant `t`
either yields a usable connection or fails with a reconnect-class error. -/
def selectServer (serverUp : Nat → Bool) (t : Nat) : Except PoolOutcome Unit :=
  if serverUp t then .ok () else .error .reconnectError

/-- Modelled from the spec, §4.4: the pool's submit loop.  At each attempt it
tries server selection; on a reconnect-class failure it evaluates the
operation's deadline: while time remains it waits one retry interval (a
positive duration) and re-selects; once the deadline is exceeded it fails the
caller with `TimeExceeded`, never raising the underlying connection error
directly. -/
def submitWithDeadline (serverUp : Nat → Bool) (deadline retryInterval : Nat) :
    Nat → PoolOutcome
  | now =>
    match selectServer serverUp now with
    | .ok _ => .success
    | .error _ =>
      if deadline ≤ now then .timeExceeded
      else submitWithDeadline serverUp deadline retryInterval (now + max 1 retryInterval)
termination_by now => deadline - now
decreasing_by
  have h1 : 1 ≤ max 1 retryInterval := le_max_left 1 retryInterval
  omega

end TxMongo

namespace GridFS

/-! ## GridFS file objects

Shallow embedding of `txmongo/_gridfs/grid_file.py`.  Byte strings are lists
of bytes; the chunks/files collections are abstracted: reads are a lookup
function `chunkAt : Nat → Option (List Nat)` and writes are recorded in an
emitted list of `DBWrite`s. -/

/-- Default chunk size, in bytes (`DEFAULT_CHUNK_SIZE = 255 * 1024`). -/
def DEFAULT_CHUNK_SIZE : Nat := 255 * 1024

/-- The file document written to the files collection by `GridIn.__flush`:
`_id`, `chunkSize`, plus the `md5`, `length` and `uploadDate` fields filled in
at close time. -/
structure FileDoc where
  filesId : Nat
  chunkSize : Nat
  md5 : Nat
  length : Nat
  uploadDate : Nat
  deriving DecidableEq, Repr

/-- A write against the database: a chunk insert (`_chunks.insert_one`) or the
file-document insert (`files.insert_one`). -/
inductive DBWrite where
  | insertChunk (filesId : Nat) (n : Nat) (data : List Nat)
  | insertFile (doc : FileDoc)
  deriving DecidableEq, Repr

/-- Errors raised synchronously by `GridIn` methods. -/
inductive GridInError where
  | valueError
  | attributeError
  deriving DecidableEq, Repr

/-- State of a `GridIn` object: the target file id and chunk size, the
in-memory buffer, the byte position, the next chunk number, the closed flag,
and the file document once written. -/
structure GridIn where
  filesId : Nat
  chunkSize : Nat
  buffer : List Nat := []
  position : Nat := 0
  chunkNumber : Nat := 0
  closed : Bool := false
  fileDoc : Option FileDoc := none
  deriving DecidableEq, Repr

namespace GridIn

/-- `GridIn.__flush_data`: flush `data` to a chunk.  Empty data writes
nothing; otherwise one chunk document `{files_id, n, data}` is inserted and
the chunk number and position advance. -/
def flushData (g : GridIn) (data : List Nat) : GridIn × List DBWrite :=
  if data = [] then (g, [])
  else
    ({ g with chunkNumber := g.chunkNumber + 1, position := g.position + data.length },
     [.insertChunk g.filesId g.chunkNumber data])

/-- `GridIn.__flush_buffer`: flush the buffer contents out to a chunk and
reset the buffer. -/
def flushBuffer (g : GridIn) : GridIn × List DBWrite :=
  let (g', ws) := g.flushData g.buffer
  ({ g' with buffer := [] }, ws)

/-- `GridIn.__flush`: flush the buffer, then write the file document with the
server-computed `md5`, the final `length` and the upload date. -/
def flush (g : GridIn) (md5 : Nat) (now : Nat) : GridIn × List DBWrite :=
  let (g', ws) := g.flushBuffer
  let doc : FileDoc :=
    { filesId := g'.filesId, chunkSize := g'.chunkSize, md5 := md5,
      length := g'.position, uploadDate := now }
  ({ g' with fileDoc := some doc }, ws ++ [.insertFile doc])

/-- `GridIn.close`: flush the file and close it.  A second call returns an
already-fired Deferred without touching the database. -/
def close (g : GridIn) (md5 : Nat) (now : Nat) : GridIn × List DBWrite :=
  if g.closed then (g, [])
  else
    let (g', ws) := g.flush md5 now
    ({ g' with closed := true }, ws)

/-- The `do_write` loop inside `GridIn.write`: repeatedly read a full chunk
from the remaining data and flush it; the final partial chunk is buffered. -/
def doWrite (g : GridIn) (rest : List Nat) : GridIn × List DBWrite :=
  let toWrite := rest.take g.chunkSize
  if h : toWrite.length = g.chunkSize ∧ toWrite ≠ [] then
    let (g', ws) := g.flushData toWrite
    let (g'', ws') := doWrite g' (rest.drop g.chunkSize)
    (g'', ws ++ ws')
  else
    ({ g with buffer := g.buffer ++ toWrite }, [])
termination_by rest.length
decreasing_by
  simp only [List.length_drop]
  have h1 : toWrite.length ≤ rest.length := by
    simp [toWrite]
  have h3 : toWrite.length = g.chunkSize := h.1
  have h4 : 0 < toWrite.length := List.length_pos.mpr h.2
  omega

/-- `GridIn.write`: write bytes to the file.  Raises `ValueError` if the file
is already closed.  If the buffer is non-empty it is topped up to a full chunk
first (returning early if the data ends before filling it), flushed, and the
remaining data goes through the `do_write` loop. -/
def write (g : GridIn) (data : List Nat) :
    Except GridInError (GridIn × List DBWrite) :=
  if g.closed then .error .valueError
  else if 0 < g.buffer.length then
    let space := g.chunkSize - g.buffer.length
    if space ≠ 0 then
      let toWrite := data.take space
      let g1 := { g with buffer := g.buffer ++ toWrite }
      if toWrite.length < space then .ok (g1, [])
      else
        let (g2, ws) := g1.flushBuffer
        let (g3, ws') := g2.doWrite (data.drop space)
        .ok (g3, ws ++ ws')
    else
      let (g2, ws) := g.flushBuffer
      let (g3, ws') := g2.doWrite data
      .ok (g3, ws ++ ws')
  else .ok (g.doWrite data)

/-- `GridIn.__setattr__`: raises `AttributeError` when the file is closed;
otherwise the attribute is stored (attribute storage beyond the modelled
fields is abstracted away, so the modelled state is returned unchanged). -/
def setattr (g : GridIn) (name : String) : Except GridInError GridIn :=
  if g.closed then .error .attributeError
  else .ok g

end GridIn

/-- Result of `GridOutIterator.__next__`: an already-fired Deferred carrying
`None`, a Deferred that delivers a chunk's bytes, a Deferred failing with
`CorruptGridFile`, or a `StopIteration` exception (which the code never
produces). -/
inductive NextResult where
  | succeedNone
  | chunkData (data : List Nat)
  | corruptGridFile (n : Nat)
  | stopIteration
  deriving DecidableEq, Repr

/-- State of a `GridOutIterator`: the file id, the current chunk index, and
the index one past the last chunk, `__max_chunk = ceil(length / chunk_size)`. -/
structure GridOutIterator where
  filesId : Nat
  currentChunk : Nat
  maxChunk : Nat
  deriving DecidableEq, Repr

/-- `GridOutIterator.__init__`: starts at chunk 0 with
`__max_chunk = math.ceil(length / chunk_size)`. -/
def GridOutIterator.mk' (filesId length chunkSize : Nat) : GridOutIterator :=
  { filesId := filesId, currentChunk := 0,
    maxChunk := (length + chunkSize - 1) / chunkSize }

/-- `GridOutIterator.__next__`: once the current chunk index reaches
`__max_chunk` it returns `defer.succeed(None)` (not `StopIteration`);
otherwise it looks the chunk up (`chunkAt`), failing with `CorruptGridFile`
when it is missing, and returning its bytes and advancing otherwise. -/
def GridOutIterator.next (it : GridOutIterator) (chunkAt : Nat → Option (List Nat)) :
    NextResult × GridOutIterator :=
  if it.currentChunk ≥ it.maxChunk then (.succeedNone, it)
  else
    match chunkAt it.currentChunk with
    | Option.none => (.corruptGridFile it.currentChunk, it)
    | some data => (.chunkData data, { it with currentChunk := it.currentChunk + 1 })

end GridFS

namespace TxMongo

/-! ## Projections used by the theorem statements -/

/-- The wire messages produced by a `commit_transaction` call (none when the
call failed with a session-level error). -/
def commitMsgsOf (r : Except TxnError (Session × List Msg × Bool)) : List Msg :=
  match r with
  | .error _ => []
  | .ok (_, ms, _) => ms

/-- The wire messages produced by an `abort_transaction` call. -/
def abortMsgsOf (r : Except TxnError (Session × List Msg)) : List Msg :=
  match r with
  | .error _ => []
  | .ok (_, ms) => ms

/-- The wire messages produced by a scoped-transaction run. -/
def scopedMsgsOf (r : Except TxnError (Session × List Msg × Option String)) :
    List Msg :=
  match r with
  | .error _ => []
  | .ok (_, ms, _) => ms

/-- The exception propagated out of a scoped-transaction run. -/
def scopedExcOf (r : Except TxnError (Session × List Msg × Option String)) :
    Option String :=
  match r with
  | .error _ => Option.none
  | .ok (_, _, e) => e

end TxMongo

/-! ## Theorems for the claims -/

open TxMongo GridFS

/-- C9: for every `GridOutIterator` whose current chunk index has reached or
passed the file's last chunk, `__next__` returns an already-fired Deferred
carrying `None` instead of raising `StopIteration` (so plain iteration never
terminates via the iterator protocol — no call ever produces
`StopIteration`); before that point, a missing chunk makes the returned
Deferred fail with `CorruptGridFile`. -/
theorem c9_grid_out_iterator_next (it : GridOutIterator)
    (chunkAt : Nat → Option (List Nat)) :
    (it.maxChunk ≤ it.currentChunk → it.next chunkAt = (.succeedNone, it)) ∧
    (it.currentChunk < it.maxChunk → chunkAt it.currentChunk = Option.none →
      (it.next chunkAt).1 = .corruptGridFile it.currentChunk) ∧
    (it.next chunkAt).1 ≠ .stopIteration := by
  refine ⟨?_, ?_, ?_⟩
  · intro h
    simp [GridOutIterator.next, h]
  · intro h hmiss
    rw [GridOutIterator.next, if_neg (by omega), hmiss]
  · rw [GridOutIterator.next]
    split
    · simp
    · cases chunkAt it.currentChunk <;> simp

/-- Witness for C9 at concrete iterators: an empty file's iterator (length 0,
chunk size 10) immediately yields `succeed(None)`, and an iterator inside a
two-chunk file whose chunk 0 is missing fails with `CorruptGridFile`. -/
theorem c9_grid_out_iterator_next_witness :
    (GridOutIterator.mk' 1 0 10).next (fun _ => Option.none) =
      (.succeedNone, GridOutIterator.mk' 1 0 10) ∧
    (((⟨1, 0, 2⟩ : GridOutIterator).next (fun _ => Option.none)).1 =
      .corruptGridFile 0) :=
  ⟨(c9_grid_out_iterator_next (GridOutIterator.mk' 1 0 10) (fun _ => Option.none)).1
      (by decide),
   (c9_grid_out_iterator_next (⟨1, 0, 2⟩ : GridOutIterator) (fun _ => Option.none)).2.1
      (by decide) rfl⟩

/-- C10: `GridIn.close` is idempotent — the first call flushes the buffer,
writes the file document (the last database write) and sets the closed flag,
and every later call returns the state unchanged with no further database
writes; once closed, `write` raises `ValueError` and setting an attribute
raises `AttributeError`, each leaving the state (and so the stored file
document) unchanged. -/
theorem c10_gridin_close_idempotent (g : GridIn) (m t m' t' : Nat)
    (data : List Nat) (attr : String) :
    ((g.close m t).1.closed = true) ∧
    ((g.close m t).1.close m' t' = ((g.close m t).1, [])) ∧
    ((g.close m t).1.write data = .error .valueError) ∧
    ((g.close m t).1.setattr attr = .error .attributeError) ∧
    (g.closed = false →
      (g.close m t).1.buffer = [] ∧
      (g.close m t).2.getLast? = some (.insertFile
        { filesId := g.filesId, chunkSize := g.chunkSize, md5 := m,
          length := g.position + g.buffer.length, uploadDate := t })) := by
  by_cases hc : g.closed
  · refine ⟨?_, ?_, ?_, ?_, ?_⟩ <;>
      simp [GridIn.close, GridIn.write, GridIn.setattr, hc]
  · have hc' : g.closed = false := by simpa using hc
    by_cases hb : g.buffer = []
    · refine ⟨?_, ?_, ?_, ?_, ?_⟩ <;>
        simp [GridIn.close, GridIn.flush, GridIn.flushBuffer, GridIn.flushData,
          GridIn.write, GridIn.setattr, hc', hb]
    · refine ⟨?_, ?_, ?_, ?_, ?_⟩ <;>
        simp [GridIn.close, GridIn.flush, GridIn.flushBuffer, GridIn.flushData,
          GridIn.write, GridIn.setattr, hc', hb]

/-- Witness for C10 at a concrete open file with a non-empty buffer. -/
theorem c10_gridin_close_idempotent_witness :
    let g : GridIn := { filesId := 5, chunkSize := 7, buffer := [1, 2, 3] }
    (g.close 99 42).1.buffer = [] ∧
    (g.close 99 42).2.getLast? = some (.insertFile
      { filesId := 5, chunkSize := 7, md5 := 99, length := 3, uploadDate := 42 }) :=
  (c10_gridin_close_idempotent
    { filesId := 5, chunkSize := 7, buffer := [1, 2, 3] } 99 42 0 0 [] "x").2.2.2.2 rfl

/-- C3: calling `start_transaction` while a transaction is `Starting` or
`InProgress` fails with an invalid-operation error; calling
`commit_transaction` or `abort_transaction` while the transaction state is
`None` fails with an invalid-operation error — in particular on an ended
session, whose transaction state is `None`.  The errors are returned
immediately, never retried or deferred. -/
theorem c3_invalid_operations (s : Session) :
    ((s.txnState = .starting ∨ s.txnState = .inProgress) →
      s.start_transaction .noneGiven .noneGiven = .error .invalidOperation) ∧
    (s.txnState = .none →
      s.commit_transaction = .error .invalidOperation ∧
      s.abort_transaction = .error .invalidOperation) ∧
    (s.end_session.1.txnState = .none ∧
      s.end_session.1.commit_transaction = .error .invalidOperation ∧
      s.end_session.1.abort_transaction = .error .invalidOperation) := by
  refine ⟨?_, ?_, ?_⟩
  · intro h
    by_cases he : s.ended <;>
      simp [Session.start_transaction, WCArg.explicitWC,
        WriteConcern.unacknowledged, he, h]
  · intro h
    constructor <;>
      simp [Session.commit_transaction, Session.commit_transaction_with,
        Session.abort_transaction, h]
  · refine ⟨rfl, ?_, ?_⟩ <;>
      simp [Session.end_session, Session.commit_transaction,
        Session.commit_transaction_with, Session.abort_transaction]

/-- Witness for C3: a session with a transaction in progress cannot start
another; a fresh session can neither commit nor abort; an ended session can
neither commit nor abort. -/
theorem c3_invalid_operations_witness :
    ({ txnState := .inProgress : Session }.start_transaction .noneGiven .noneGiven
        = .error .invalidOperation) ∧
    (({} : Session).commit_transaction = .error .invalidOperation ∧
      ({} : Session).abort_transaction = .error .invalidOperation) ∧
    (({} : Session).end_session.1.commit_transaction = .error .invalidOperation) :=
  ⟨(c3_invalid_operations { txnState := .inProgress }).1 (Or.inr rfl),
   (c3_invalid_operations {}).2.1 rfl,
   (c3_invalid_operations {}).2.2.2.1⟩

/-- C5: a transaction in which no statement was ever sent (state `Starting`,
"statement sent" flag unset) emits zero wire messages on commit, abort, or
session end; ending a session while a transaction is `Starting` or
`InProgress` with at least one statement sent emits exactly one
`abortTransaction` command. -/
theorem c5_empty_transaction_messages (s : Session) :
    (s.txnState = .starting → s.statementsSent = false →
      commitMsgsOf s.commit_transaction = [] ∧
      abortMsgsOf s.abort_transaction = [] ∧
      s.end_session.2 = []) ∧
    ((s.txnState = .starting ∨ s.txnState = .inProgress) →
      s.statementsSent = true →
      s.end_session.2 =
        [{ cmd := .abortTransaction, writeConcern := some s.txnWC }]) := by
  constructor
  · intro h hsent
    refine ⟨?_, ?_, ?_⟩ <;>
      simp [Session.commit_transaction, Session.commit_transaction_with,
        Session.abort_transaction, Session.end_session, commitMsgsOf,
        abortMsgsOf, h, hsent]
  · intro h hsent
    simp [Session.end_session, h, hsent]

/-- Witness for C5: a just-started transaction commits, aborts and ends with
no wire traffic; ending a session mid-transaction after a statement emits the
single abort command. -/
theorem c5_empty_transaction_messages_witness :
    (commitMsgsOf { txnState := .starting : Session }.commit_transaction = [] ∧
      abortMsgsOf { txnState := .starting : Session }.abort_transaction = [] ∧
      ({ txnState := .starting : Session }).end_session.2 = []) ∧
    ({ txnState := .inProgress, statementsSent := true : Session }.end_session.2 =
      [{ cmd := .abortTransaction, writeConcern := some {} }]) :=
  ⟨(c5_empty_transaction_messages { txnState := .starting }).1 rfl rfl,
   (c5_empty_transaction_messages
      { txnState := .inProgress, statementsSent := true }).2 (Or.inr rfl) rfl⟩

/-- C6: from state `Committed`, every further `commit_transaction` call
succeeds and re-sends the commit command — `n` extra calls leave the session
unchanged and yield exactly `n` extra `commitTransaction` messages, never an
error — whereas from state `Aborted` a further `abort_transaction` call fails
with an invalid-operation error. -/
theorem c6_commit_resend_abort_fails (s : Session) (n : Nat) :
    (s.txnState = .committed →
      s.commitMany n = .ok (s,
        List.replicate n
          { cmd := .commitTransaction, writeConcern := some s.txnWC,
            maxTimeMS := s.txnMCT })) ∧
    (s.txnState = .aborted →
      s.abort_transaction = .error .invalidOperation) := by
  constructor
  · intro h
    have hfix : { s with txnState := .committed } = s := by
      cases s
      simp_all
    induction n with
    | zero => simp [Session.commitMany]
    | succ k ih =>
      rw [Session.commitMany, Session.commit_transaction,
        Session.commit_transaction_with, h]
      simp only [hfix, ih, List.replicate_succ]
      rfl
  · intro h
    simp [Session.abort_transaction, h]

/-- Witness for C6: three extra commits on a committed transaction re-send
three commit commands; aborting an aborted transaction errors. -/
theorem c6_commit_resend_abort_fails_witness :
    ({ txnState := .committed : Session }.commitMany 3 = .ok
      ({ txnState := .committed },
       List.replicate 3
         { cmd := .commitTransaction, writeConcern := some {},
           maxTimeMS := Option.none })) ∧
    ({ txnState := .aborted : Session }.abort_transaction =
      .error .invalidOperation) :=
  ⟨(c6_commit_resend_abort_fails { txnState := .committed } 3).1 rfl,
   (c6_commit_resend_abort_fails { txnState := .aborted } 3).2 rfl⟩

/-- C7: `start_transaction` rejects an unacknowledged write concern (`w = 0`)
with a configuration error on every session, before any state change or wire
message (an error result changes nothing and the call emits no message);
a non-`WriteConcern` `write_concern` value or a non-integer
`max_commit_time_ms` is rejected with a type error. -/
theorem c7_start_transaction_validation (s : Session) (w : WriteConcern)
    (wcArg : WCArg) (mctArg : MCTArg) :
    (w.unacknowledged = true → mctArg ≠ .nonInt →
      s.start_transaction (.wc w) mctArg = .error .configurationError) ∧
    (s.start_transaction .nonWC mctArg = .error .typeError) ∧
    (wcArg ≠ .nonWC → s.start_transaction wcArg .nonInt = .error .typeError) := by
  refine ⟨?_, ?_, ?_⟩
  · intro hw hm
    cases mctArg <;> simp_all [Session.start_transaction, WCArg.explicitWC]
  · rfl
  · intro hwc
    cases wcArg <;> simp_all [Session.start_transaction]

/-- Witness for C7 at the inputs of the validation test: `w=0` gives a
configuration error, a non-`WriteConcern` value and a non-integer
`max_commit_time_ms` give type errors. -/
theorem c7_start_transaction_validation_witness :
    (({} : Session).start_transaction (.wc { w := some (.num 0) }) .noneGiven =
      .error .configurationError) ∧
    (({} : Session).start_transaction .nonWC .noneGiven = .error .typeError) ∧
    (({} : Session).start_transaction .noneGiven .nonInt = .error .typeError) :=
  ⟨(c7_start_transaction_validation {} { w := some (.num 0) } .noneGiven .noneGiven).1
      rfl (by decide),
   (c7_start_transaction_validation {} {} .noneGiven .noneGiven).2.1,
   (c7_start_transaction_validation {} {} .noneGiven .noneGiven).2.2 (by decide)⟩

/-- Inversion for a successful `start_transaction`: the new session carries
the resolved write concern and max commit time, state `Starting`, and no
statement sent yet. -/
theorem start_transaction_ok_inv (s s' : Session) (wcArg : WCArg)
    (mctArg : MCTArg) (hok : s.start_transaction wcArg mctArg = .ok s') :
    s' = { s with
           txnState := .starting
           statementsSent := false
           txnNumber := s.txnNumber + 1
           txnWC := resolveWC wcArg.explicitWC s.defaultTxnOptions.write_concern
                      s.connWC
           txnMCT := resolveMCT mctArg.explicitMCT
                       s.defaultTxnOptions.max_commit_time_ms } := by
  cases wcArg <;> cases mctArg <;>
    simp only [Session.start_transaction] at hok <;>
    try exact Except.noConfusion hok
  all_goals
    split at hok <;> try exact Except.noConfusion hok
  all_goals
    split at hok <;> try exact Except.noConfusion hok
  all_goals
    split at hok <;> try exact Except.noConfusion hok
  all_goals cases hok
  all_goals rfl

/-- C2: while a transaction is active, a statement's wire message carries no
`writeConcern` field (even when an explicit write concern was supplied) and no
`maxTimeMS`; only `commit_transaction` and `abort_transaction` carry a write
concern (plus `maxTimeMS`, on the commit, when present), the one resolved at
`start_transaction` with precedence explicit per-transaction option > session
default transaction options > connection-level default > none. -/
theorem c2_statement_wc_suppressed (s s' : Session) (cmd : CmdName)
    (ewc : Option WriteConcern) (wcArg : WCArg) (mctArg : MCTArg) :
    ((s.txnState = .starting ∨ s.txnState = .inProgress) →
      (s.executeStatement cmd ewc).2.writeConcern = Option.none ∧
      (s.executeStatement cmd ewc).2.maxTimeMS = Option.none) ∧
    (s.start_transaction wcArg mctArg = .ok s' →
      ((∀ w, wcArg = .wc w → s'.txnWC = w) ∧
       (wcArg = .noneGiven →
         (∀ w, s.defaultTxnOptions.write_concern = some w → s'.txnWC = w) ∧
         (s.defaultTxnOptions.write_concern = Option.none →
           s'.txnWC = s.connWC.getD {})) ∧
       (∀ n, mctArg = .int n → s'.txnMCT = some n) ∧
       (mctArg = .noneGiven →
         s'.txnMCT = s.defaultTxnOptions.max_commit_time_ms))) ∧
    (s.txnState = .inProgress →
      commitMsgsOf s.commit_transaction =
        [{ cmd := .commitTransaction, writeConcern := some s.txnWC,
           maxTimeMS := s.txnMCT }] ∧
      abortMsgsOf s.abort_transaction =
        [{ cmd := .abortTransaction, writeConcern := some s.txnWC }]) := by
  refine ⟨?_, ?_, ?_⟩
  · intro h
    simp [Session.executeStatement, h]
  · intro hok
    have hs' := start_transaction_ok_inv s s' wcArg mctArg hok
    subst hs'
    refine ⟨?_, ?_, ?_, ?_⟩
    · intro w hw
      subst hw
      simp [resolveWC, WCArg.explicitWC]
    · intro hw
      subst hw
      constructor
      · intro w hd
        simp [resolveWC, WCArg.explicitWC, hd]
      · intro hd
        simp [resolveWC, WCArg.explicitWC, hd]
    · intro n hm
      subst hm
      simp [resolveMCT, MCTArg.explicitMCT]
    · intro hm
      subst hm
      simp [resolveMCT, MCTArg.explicitMCT]
  · intro h
    constructor <;>
      simp [Session.commit_transaction, Session.commit_transaction_with,
        Session.abort_transaction, commitMsgsOf, abortMsgsOf, h]

/-- Witness for C2, mirroring the write-concern tests: a statement inside a
transaction carries no write concern even though one was supplied; a
transaction started with an explicit write concern resolves to it; with no
explicit option the session default wins; with neither, the connection-level
default wins; commit and abort carry the resolved write concern. -/
theorem c2_statement_wc_suppressed_witness :
    (({ txnState := .inProgress : Session }.executeStatement .insert
        (some { w := some (.num 1) })).2.writeConcern = Option.none) ∧
    (∀ s', ({} : Session).start_transaction
        (.wc { w := some (.num 1), wtimeout := some 123 }) .noneGiven = .ok s' →
      s'.txnWC = { w := some (.num 1), wtimeout := some 123 }) ∧
    (∀ s', (startSession (some { w := some (.str "majority"), wtimeout := some 1234 })
        {}).start_transaction .noneGiven .noneGiven = .ok s' →
      s'.txnWC = { w := some (.str "majority"), wtimeout := some 1234 }) ∧
    (commitMsgsOf (Session.commit_transaction
        { txnState := .inProgress,
          txnWC := { w := some (.num 1), wtimeout := some 123 } }) =
      [{ cmd := .commitTransaction,
         writeConcern := some { w := some (.num 1), wtimeout := some 123 } }]) := by
  refine ⟨?_, ?_, ?_, ?_⟩
  · exact (c2_statement_wc_suppressed { txnState := .inProgress }
      { txnState := .inProgress } .insert (some { w := some (.num 1) })
      .noneGiven .noneGiven).1 (Or.inr rfl) |>.1
  · intro s' h
    exact ((c2_statement_wc_suppressed {} s' .insert Option.none
      (.wc { w := some (.num 1), wtimeout := some 123 }) .noneGiven).2.1 h).1
      { w := some (.num 1), wtimeout := some 123 } rfl
  · intro s' h
    exact (((c2_statement_wc_suppressed
      (startSession (some { w := some (.str "majority"), wtimeout := some 1234 }) {})
      s' .insert Option.none .noneGiven .noneGiven).2.1 h).2.1 rfl).2 rfl
  · exact ((c2_statement_wc_suppressed
      { txnState := .inProgress, txnWC := { w := some (.num 1), wtimeout := some 123 } }
      { txnState := .inProgress } .insert Option.none .noneGiven .noneGiven).2.2
      rfl).1

/-- C1: when `commit_transaction` fails with an error labeled
`RetryableWriteError`, the commit is retried automatically exactly once more,
with write concern `{w: "majority", wtimeout: 10000}` regardless of the
originally resolved write concern; the insert + commit scenario with the
failure injected on the commit therefore produces exactly three wire messages:
the insert, the failed commit with the original write concern, and the retried
commit with the majority write concern. -/
theorem c1_commit_retry (wc : WriteConcern) (s : Session) (o2 : SendOutcome)
    (hwc : wc.unacknowledged = false) :
    insertCommitScenario wc .failRetryable .ok =
      [{ cmd := .insert },
       { cmd := .commitTransaction, writeConcern := some wc },
       { cmd := .commitTransaction, writeConcern := some retryWC }] ∧
    ((s.txnState = .inProgress ∨ s.txnState = .committed) →
      commitMsgsOf (s.commit_transaction_with .failRetryable o2) =
        [{ cmd := .commitTransaction, writeConcern := some s.txnWC,
           maxTimeMS := s.txnMCT },
         { cmd := .commitTransaction, writeConcern := some retryWC,
           maxTimeMS := s.txnMCT }]) := by
  constructor
  · simp only [insertCommitScenario, startSession, Session.start_transaction,
      WCArg.explicitWC, Session.executeStatement, Session.commit_transaction_with,
      resolveWC, resolveMCT, MCTArg.explicitMCT, Option.getD, hwc]
    simp [Session.executeStatement]
  · intro h
    rcases h with h | h <;>
      · rw [Session.commit_transaction_with]
        rw [h]
        cases o2 <;> rfl

/-- Witness for C1 at the test's write concern `{w: 1}`: the scenario yields
exactly the three expected messages, and a mid-transaction commit whose first
send fails retryably emits the original and the majority-retry commit. -/
theorem c1_commit_retry_witness :
    insertCommitScenario { w := some (.num 1) } .failRetryable .ok =
      [{ cmd := .insert },
       { cmd := .commitTransaction, writeConcern := some { w := some (.num 1) } },
       { cmd := .commitTransaction, writeConcern := some retryWC }] ∧
    commitMsgsOf (Session.commit_transaction_with
        { txnState := .inProgress, txnWC := { w := some (.num 1) } }
        .failRetryable .ok) =
      [{ cmd := .commitTransaction, writeConcern := some { w := some (.num 1) },
         maxTimeMS := Option.none },
       { cmd := .commitTransaction, writeConcern := some retryWC,
         maxTimeMS := Option.none }] :=
  ⟨(c1_commit_retry { w := some (.num 1) }
      { txnState := .inProgress, txnWC := { w := some (.num 1) } } .ok rfl).1,
   (c1_commit_retry { w := some (.num 1) }
      { txnState := .inProgress, txnWC := { w := some (.num 1) } } .ok rfl).2
      (Or.inl rfl)⟩

/-- Helper for the deadline claim, by induction on the remaining time: with no
server ever reachable the loop ends in `TimeExceeded`; with the server
restored (and staying up) no later than the deadline the loop ends in success;
and the loop never surfaces the reconnect-class error. -/
theorem submitWithDeadline_spec (serverUp : Nat → Bool)
    (deadline retryInterval : Nat) : ∀ (k now : Nat), deadline - now ≤ k →
    (((∀ t, serverUp t = false) →
        submitWithDeadline serverUp deadline retryInterval now = .timeExceeded) ∧
     (∀ tRestore, tRestore ≤ deadline → (∀ t, tRestore ≤ t → serverUp t = true) →
        submitWithDeadline serverUp deadline retryInterval now = .success) ∧
     submitWithDeadline serverUp deadline retryInterval now ≠ .reconnectError) := by
  intro k
  induction k with
  | zero =>
    intro now hk
    have hd : deadline ≤ now := by omega
    refine ⟨?_, ?_, ?_⟩
    · intro hdown
      rw [submitWithDeadline]
      simp [selectServer, hdown now, hd]
    · intro tRestore htR hup
      rw [submitWithDeadline]
      simp [selectServer, hup now (by omega)]
    · rw [submitWithDeadline]
      by_cases hup : serverUp now <;> simp [selectServer, hup, hd]
  | succ k ih =>
    intro now hk
    have hstep : 1 ≤ max 1 retryInterval := le_max_left 1 retryInterval
    refine ⟨?_, ?_, ?_⟩
    · intro hdown
      rw [submitWithDeadline]
      simp only [selectServer, hdown now, Bool.false_eq_true, if_false]
      by_cases hd : deadline ≤ now
      · simp [hd]
      · simp only [hd, if_false]
        exact (ih (now + max 1 retryInterval) (by omega)).1 hdown
    · intro tRestore htR hup
      by_cases hnow : tRestore ≤ now
      · rw [submitWithDeadline]
        simp [selectServer, hup now hnow]
      · have hd : ¬deadline ≤ now := by omega
        by_cases hup' : serverUp now
        · rw [submitWithDeadline]
          simp [selectServer, hup']
        · rw [submitWithDeadline]
          simp only [selectServer, hup', Bool.false_eq_true, if_false, hd]
          exact (ih (now + max 1 retryInterval) (by omega)).2.1 tRestore htR hup
    · by_cases hup : serverUp now
      · rw [submitWithDeadline]
        simp [selectServer, hup]
      · rw [submitWithDeadline]
        by_cases hd : deadline ≤ now
        · simp [selectServer, hup, hd]
        · simp only [selectServer, hup, Bool.false_eq_true, if_false, hd]
          exact (ih (now + max 1 retryInterval) (by omega)).2.2

/-- C4: for an operation submitted with a deadline while no matching server is
reachable, the pool keeps retrying server selection while time remains, and
once the deadline is exceeded the operation fails with `TimeExceeded` — never
with the underlying reconnect-class connection error; restoring the server no
later than the deadline yields a successful result instead. -/
theorem c4_deadline_time_exceeded (serverUp : Nat → Bool)
    (deadline retryInterval now : Nat) :
    ((∀ t, serverUp t = false) →
      submitWithDeadline serverUp deadline retryInterval now = .timeExceeded) ∧
    (∀ tRestore, tRestore ≤ deadline → (∀ t, tRestore ≤ t → serverUp t = true) →
      submitWithDeadline serverUp deadline retryInterval now = .success) ∧
    submitWithDeadline serverUp deadline retryInterval now ≠ .reconnectError :=
  submitWithDeadline_spec serverUp deadline retryInterval (deadline - now) now
    (Nat.le_refl _)

/-- Witness for C4, mirroring the two-second-deadline test: a server that is
down forever makes the operation fail with `TimeExceeded`, and a server
restored at time 1 (before the deadline 2) makes it succeed. -/
theorem c4_deadline_time_exceeded_witness :
    submitWithDeadline (fun _ => false) 2 3 0 = .timeExceeded ∧
    submitWithDeadline (fun t => decide (1 ≤ t)) 2 3 0 = .success :=
  ⟨(c4_deadline_time_exceeded (fun _ => false) 2 3 0).1 (fun _ => rfl),
   (c4_deadline_time_exceeded (fun t => decide (1 ≤ t)) 2 3 0).2.1 1 (by decide)
     (fun t ht => by simp [ht])⟩

/-- Folding statements over a session already `InProgress` with a statement
sent leaves the session fixed and emits one bare message per statement. -/
theorem seqFold_inProgress (stmts : List CmdName) (s : Session) (acc : List Msg)
    (h : s.txnState = .inProgress) (hs : s.statementsSent = true) :
    stmts.foldl stmtStep (s, acc) =
      (s, acc ++ stmts.map (fun c => { cmd := c })) := by
  induction stmts generalizing acc with
  | nil => simp
  | cons c cs ih =>
    have hstep : s.executeStatement c Option.none = (s, { cmd := c }) := by
      cases s
      simp_all [Session.executeStatement]
    rw [List.foldl_cons]
    have : stmtStep (s, acc) c = (s, acc ++ [{ cmd := c }]) := by
      simp [stmtStep, hstep]
    rw [this, ih]
    simp

/-- Running a non-empty statement body on a session with an active transaction
moves it to `InProgress` with the statement flag set, emitting one bare
message per statement. -/
theorem seqBody_active (c : CmdName) (cs : List CmdName) (exc : Option String)
    (s : Session) (h : s.txnState = .starting ∨ s.txnState = .inProgress) :
    seqBody (c :: cs) exc s =
      ({ s with txnState := .inProgress, statementsSent := true },
       (c :: cs).map (fun m => { cmd := m }), exc) := by
  have hstep : stmtStep (s, ([] : List Msg)) c =
      ({ s with txnState := .inProgress, statementsSent := true },
       [{ cmd := c }]) := by
    rcases h with h | h <;> simp [stmtStep, Session.executeStatement, h]
  rw [seqBody]
  simp only [List.foldl_cons, hstep]
  rw [seqFold_inProgress cs _ [{ cmd := c }] rfl rfl]
  simp

/-- Counterexample to C8 as stated: a scoped transaction whose block runs no
statement and exits normally succeeds but emits zero wire messages — in
particular not "exactly one commitTransaction message" (matching the
`test_empty_commit` test, which asserts zero messages for this use). -/
theorem c8_scoped_commit_counterexample :
    scopedMsgsOf (runScopedTransaction (startSession Option.none {}) .noneGiven
        .noneGiven (seqBody [] Option.none)) = [] ∧
    scopedExcOf (runScopedTransaction (startSession Option.none {}) .noneGiven
        .noneGiven (seqBody [] Option.none)) = Option.none ∧
    List.countP (fun m => m.cmd == CmdName.commitTransaction)
        (scopedMsgsOf (runScopedTransaction (startSession Option.none {})
          .noneGiven .noneGiven (seqBody [] Option.none))) ≠ 1 := by
  refine ⟨rfl, rfl, by decide⟩

/-- C8 (amended): for every use of the scoped-transaction helper whose block
executed at least one statement, a normal exit commits the transaction with
exactly one `commitTransaction` message following the block's statements, and
an exit via a raised failure aborts it with exactly one `abortTransaction`
message and propagates the failure unchanged; a block that executed no
statement emits no wire message at all (and its failure still propagates). -/
theorem c8_scoped_transaction (cw : Option WriteConcern) (d : TransactionOptions)
    (stmts : List CmdName) (e : String) :
    (stmts ≠ [] →
      scopedMsgsOf (runScopedTransaction (startSession cw d) .noneGiven .noneGiven
          (seqBody stmts Option.none)) =
        stmts.map (fun c => { cmd := c }) ++
          [{ cmd := .commitTransaction,
             writeConcern := some (resolveWC Option.none d.write_concern cw),
             maxTimeMS := resolveMCT Option.none d.max_commit_time_ms }] ∧
      scopedExcOf (runScopedTransaction (startSession cw d) .noneGiven .noneGiven
          (seqBody stmts Option.none)) = Option.none ∧
      scopedMsgsOf (runScopedTransaction (startSession cw d) .noneGiven .noneGiven
          (seqBody stmts (some e))) =
        stmts.map (fun c => { cmd := c }) ++
          [{ cmd := .abortTransaction,
             writeConcern := some (resolveWC Option.none d.write_concern cw) }] ∧
      scopedExcOf (runScopedTransaction (startSession cw d) .noneGiven .noneGiven
          (seqBody stmts (some e))) = some e) ∧
    (stmts = [] →
      scopedMsgsOf (runScopedTransaction (startSession cw d) .noneGiven .noneGiven
          (seqBody stmts Option.none)) = [] ∧
      scopedMsgsOf (runScopedTransaction (startSession cw d) .noneGiven .noneGiven
          (seqBody stmts (some e))) = [] ∧
      scopedExcOf (runScopedTransaction (startSession cw d) .noneGiven .noneGiven
          (seqBody stmts (some e))) = some e) := by
  have hstart : (startSession cw d).start_transaction .noneGiven .noneGiven =
      .ok { startSession cw d with
            txnState := .starting
            statementsSent := false
            txnNumber := 1
            txnWC := resolveWC Option.none d.write_concern cw
            txnMCT := resolveMCT Option.none d.max_commit_time_ms } := by
    simp [Session.start_transaction, WCArg.explicitWC, MCTArg.explicitMCT,
      WriteConcern.unacknowledged, startSession]
  constructor
  · intro hne
    obtain ⟨c, cs, rfl⟩ : ∃ c cs, stmts = c :: cs := by
      cases stmts with
      | nil => exact absurd rfl hne
      | cons c cs => exact ⟨c, cs, rfl⟩
    simp only [runScopedTransaction, hstart]
    rw [seqBody_active c cs Option.none _ (Or.inl rfl),
        seqBody_active c cs (some e) _ (Or.inl rfl)]
    simp [Session.commit_transaction, Session.commit_transaction_with,
      Session.abort_transaction, scopedMsgsOf, scopedExcOf, startSession]
  · intro hnil
    subst hnil
    simp only [runScopedTransaction, hstart]
    simp [seqBody, Session.commit_transaction, Session.commit_transaction_with,
      Session.abort_transaction, scopedMsgsOf, scopedExcOf]

/-- Witness for C8 (amended) at the tests' shapes: insert + find then normal
exit yields insert, find, one commit; insert + find then a raised failure
yields insert, find, one abort with the failure propagated; an empty block
emits nothing. -/
theorem c8_scoped_transaction_witness :
    scopedMsgsOf (runScopedTransaction (startSession Option.none {}) .noneGiven
        .noneGiven (seqBody [.insert, .find] Option.none)) =
      [{ cmd := .insert }, { cmd := .find },
       { cmd := .commitTransaction, writeConcern := some {} }] ∧
    scopedMsgsOf (runScopedTransaction (startSession Option.none {}) .noneGiven
        .noneGiven (seqBody [.insert, .find] (some "Boom"))) =
      [{ cmd := .insert }, { cmd := .find },
       { cmd := .abortTransaction, writeConcern := some {} }] ∧
    scopedExcOf (runScopedTransaction (startSession Option.none {}) .noneGiven
        .noneGiven (seqBody [.insert, .find] (some "Boom"))) = some "Boom" ∧
    scopedMsgsOf (runScopedTransaction (startSession Option.none {}) .noneGiven
        .noneGiven (seqBody [] Option.none)) = [] :=
  ⟨(c8_scoped_transaction Option.none {} [.insert, .find] "Boom").1
      (by decide) |>.1,
   (c8_scoped_transaction Option.none {} [.insert, .find] "Boom").1
      (by decide) |>.2.2.1,
   (c8_scoped_transaction Option.none {} [.insert, .find] "Boom").1
      (by decide) |>.2.2.2,
   (c8_scoped_transaction Option.none {} [] "Boom").2 rfl |>.1⟩
